import Mathlib

/-!
Formal model of the siglab_contract Solana program: oracle registry and
health metrics, oracle consensus, payout calculation and queue, and the
treasury ledger.  Each definition is a shallow embedding of the
corresponding Rust function from programs/siglab_contract/src.

Conventions:
* u64 / u32 / u8 fields are modeled as Nat; i64 timestamps as Int.
* Narrowing casts in the source (`as u8`, `as u16`) are modeled by an
  explicit `% 256` / `% 65536`.
* Saturating subtraction on unsigned integers coincides with Nat
  subtraction.
* Fallible instructions return `Except InsuranceError _`; an instruction
  that can mutate state before failing returns the pair of its result and
  the final account state.
* Pubkey values are modeled as Nat; byte arrays as List Nat.
-/

/-- Error codes from src/error.rs (only the variants used by the
modeled instructions). -/
inductive InsuranceError where
  | Unauthorized
  | OracleInactive
  | InvalidInput
  | InvalidOracleData
  | OracleDataTooOld
  | OracleSignatureInvalid
  | OracleConsensusFailure
  | InsufficientOracles
  | InsufficientTreasury
  | ReserveRatioViolation
  | ClaimPeriodExpired
  | PayoutConditionsNotMet
  | InvalidClaimAmount
  deriving DecidableEq

/-- Decidable equality for Except, needed to evaluate instruction results
on concrete inputs. -/
instance {e a : Type} [DecidableEq e] [DecidableEq a] : DecidableEq (Except e a) := fun
  | .ok x, .ok y => if h : x = y then .isTrue (by rw [h]) else .isFalse (by simp [h])
  | .ok _, .error _ => .isFalse (by simp)
  | .error _, .ok _ => .isFalse (by simp)
  | .error x, .error y => if h : x = y then .isTrue (by rw [h]) else .isFalse (by simp [h])

/-- Oracle kinds, src/state/oracle.rs. -/
inductive OracleType where
  | Chainlink
  | Pyth
  deriving DecidableEq

/-- One submitted oracle reading, src/state/oracle.rs `OracleData`. -/
structure OracleData where
  value : Nat
  timestamp : Int
  confidence : Nat
  signature : List Nat
  nonce : Nat
  deriving DecidableEq

/-- Per-oracle health metrics, src/state/oracle.rs `OracleHealthMetrics`. -/
structure OracleHealthMetrics where
  updates_24h : Nat
  accuracy_score : Nat
  last_health_check : Int
  failed_validations : Nat
  circuit_breaker_active : Bool
  deriving DecidableEq

/-- Oracle account state, src/state/oracle.rs `Oracle`. -/
structure Oracle where
  oracle_id : String
  authority : Nat
  oracle_type : OracleType
  is_active : Bool
  last_update_timestamp : Int
  data_feed_address : String
  latest_data : Option OracleData
  reputation_score : Nat
  update_count : Nat
  health_metrics : OracleHealthMetrics
  deriving DecidableEq

/-- `OracleHealthMetrics::new`. -/
def OracleHealthMetrics.new : OracleHealthMetrics :=
  { updates_24h := 0
    accuracy_score := 100
    last_health_check := 0
    failed_validations := 0
    circuit_breaker_active := false }

/-- `OracleHealthMetrics::record_successful_update`. -/
def OracleHealthMetrics.record_successful_update (m : OracleHealthMetrics)
    (current_timestamp : Int) : OracleHealthMetrics :=
  let m1 := { m with updates_24h := m.updates_24h + 1, last_health_check := current_timestamp }
  if m1.accuracy_score < 100 then
    { m1 with accuracy_score := min 100 (m1.accuracy_score + 1) }
  else m1

/-- `OracleHealthMetrics::record_failed_validation`: bump the failure
counter, degrade accuracy by 5 (saturating), and trip the circuit breaker
once the counter reaches 5. -/
def OracleHealthMetrics.record_failed_validation (m : OracleHealthMetrics)
    (current_timestamp : Int) : OracleHealthMetrics :=
  let m1 := { m with failed_validations := m.failed_validations + 1,
                     last_health_check := current_timestamp }
  let m2 := if m1.accuracy_score > 0 then { m1 with accuracy_score := m1.accuracy_score - 5 }
            else m1
  if m2.failed_validations ≥ 5 then { m2 with circuit_breaker_active := true } else m2

/-- `OracleHealthMetrics::reset_daily_metrics`. -/
def OracleHealthMetrics.reset_daily_metrics (m : OracleHealthMetrics)
    (current_timestamp : Int) : OracleHealthMetrics :=
  let m1 := { m with updates_24h := 0, last_health_check := current_timestamp }
  if m1.accuracy_score > 80 then
    { m1 with failed_validations := 0, circuit_breaker_active := false }
  else m1

/-- `calculate_percentage_change` from src/instructions/oracle.rs.  The
source computes `(difference * 100) / old_value` in u64 and then narrows
with `percentage as u8` before taking `min(_, 100)`; the narrowing cast is
modeled by `% 256`. -/
def calculate_percentage_change (old_value new_value : Nat) : Nat :=
  if old_value = 0 then 100
  else
    let difference := if new_value > old_value then new_value - old_value
                      else old_value - new_value
    let percentage := difference * 100 / old_value
    min (percentage % 256) 100

/-- `validate_data_reasonableness` from src/instructions/oracle.rs:
circuit breaker gate, then the swing cap against the previous reading,
then the confidence check. -/
def validate_data_reasonableness (oracle : Oracle) (new_data : OracleData)
    (max_change_percentage : Nat) : Except InsuranceError Unit :=
  if oracle.health_metrics.circuit_breaker_active then .error .OracleConsensusFailure
  else
    match oracle.latest_data with
    | some last_data =>
        if calculate_percentage_change last_data.value new_data.value ≤ max_change_percentage then
          if new_data.confidence > 0 then .ok () else .error .InvalidOracleData
        else .error .InvalidOracleData
    | none =>
        if new_data.confidence > 0 then .ok () else .error .InvalidOracleData

/-- `update_oracle_health` from src/instructions/oracle.rs. -/
def update_oracle_health (oracle : Oracle) (success : Bool) (current_timestamp : Int) : Oracle :=
  if success then
    let o := { oracle with
      health_metrics := oracle.health_metrics.record_successful_update current_timestamp }
    if o.reputation_score < 100 then
      { o with reputation_score := min 100 (o.reputation_score + 1) }
    else o
  else
    { oracle with
      health_metrics := oracle.health_metrics.record_failed_validation current_timestamp,
      reputation_score := oracle.reputation_score - 3 }

/-- Result of `update_oracle_data`: the instruction outcome together with
the oracle account state it leaves behind (the signature-failure branch
mutates health metrics before returning the error). -/
structure UpdateResult where
  res : Except InsuranceError Unit
  oracle : Oracle
  deriving DecidableEq

/-- Successful tail of `update_oracle_data`: store the reading, bump the
update counter, and record a successful update in the health metrics. -/
def apply_successful_update (oracle : Oracle) (data : OracleData) (now : Int) : Oracle :=
  update_oracle_health
    { oracle with latest_data := some data, last_update_timestamp := now,
                  update_count := oracle.update_count + 1 }
    true now

/-- `update_oracle_data` from src/instructions/oracle.rs, including the
`oracle.is_active` account constraint.  Checks run in source order:
reasonableness (breaker, swing, confidence), staleness (five minutes),
placeholder signature check (all-zero bytes rejected), nonce replay
check, then the state update. -/
def update_oracle_data (oracle : Oracle) (data : OracleData) (now : Int) : UpdateResult :=
  if oracle.is_active then
    match validate_data_reasonableness oracle data 50 with
    | .error e => ⟨.error e, oracle⟩
    | .ok _ =>
      if 300 < now - data.timestamp then ⟨.error .OracleDataTooOld, oracle⟩
      else if data.signature.all (fun x => x == 0) then
        ⟨.error .OracleSignatureInvalid, update_oracle_health oracle false now⟩
      else
        match oracle.latest_data with
        | some last_data =>
            if data.nonce ≤ last_data.nonce then ⟨.error .InvalidOracleData, oracle⟩
            else ⟨.ok (), apply_successful_update oracle data now⟩
        | none => ⟨.ok (), apply_successful_update oracle data now⟩
  else ⟨.error .OracleInactive, oracle⟩

/-- `emergency_oracle_override` from src/instructions/oracle.rs: overwrite
the latest reading, refresh the update timestamp, clear the circuit
breaker and the failure counter. -/
def emergency_oracle_override (oracle : Oracle) (corrected_data : OracleData)
    (now : Int) : Oracle :=
  { oracle with
    latest_data := some corrected_data,
    last_update_timestamp := now,
    health_metrics := { oracle.health_metrics with
      circuit_breaker_active := false,
      failed_validations := 0 } }

/-- `reset_oracle_circuit_breaker` from src/instructions/oracle.rs. -/
def reset_oracle_circuit_breaker (oracle : Oracle) : Oracle :=
  { oracle with
    health_metrics := { oracle.health_metrics with
      circuit_breaker_active := false,
      failed_validations := 0 } }

/-- Fresh oracle state as initialized by `register_oracle`
(src/instructions/oracle.rs): perfect reputation, fresh health metrics,
no stored reading. -/
def register_oracle_state (oracle_id : String) (authority : Nat)
    (data_feed_address : String) : Oracle :=
  { oracle_id := oracle_id
    authority := authority
    oracle_type := .Pyth
    is_active := true
    last_update_timestamp := 0
    data_feed_address := data_feed_address
    latest_data := none
    reputation_score := 100
    update_count := 0
    health_metrics := OracleHealthMetrics.new }

/-- Ephemeral consensus result, src/state/oracle.rs `ConsensusData`. -/
structure ConsensusData where
  aggregated_value : Nat
  confidence_score : Nat
  oracle_count : Nat
  consensus_timestamp : Int
  median_value : Nat
  standard_deviation : Nat
  deriving DecidableEq

/-- Loop body of `ConsensusData::integer_sqrt` (binary search for the
largest `mid` with `mid <= n / mid`).  The extra fuel argument bounds the
iteration count; `right + 1 - left` strictly decreases each pass, so fuel
`n + 1` is never exhausted when starting from `left = 1`, `right = n`. -/
def sqrtLoop (n : Nat) : Nat → Nat → Nat → Nat → Nat
  | 0, _, _, result => result
  | fuel + 1, left, right, result =>
      if left ≤ right then
        let mid := left + (right - left) / 2
        if mid ≤ n / mid then sqrtLoop n fuel (mid + 1) right mid
        else sqrtLoop n fuel left (mid - 1) result
      else result

/-- `ConsensusData::integer_sqrt`. -/
def integer_sqrt (n : Nat) : Nat :=
  if n = 0 then 0 else sqrtLoop n (n + 1) 1 n 0

/-- `ConsensusData::calculate_weighted_average` (simple integer mean). -/
def calculate_weighted_average (values : List Nat) : Nat :=
  if values.isEmpty then 0 else values.sum / values.length

/-- `ConsensusData::calculate_median`.  The source sorts ascending with
the standard stable sort; modeled with insertionSort, which agrees with
any stable sort under a total order. -/
def calculate_median (values : List Nat) : Nat :=
  if values.isEmpty then 0
  else
    let sorted_values := values.insertionSort (fun a b => a ≤ b)
    let len := sorted_values.length
    if len % 2 = 0 then
      (sorted_values.getD (len / 2 - 1) 0 + sorted_values.getD (len / 2) 0) / 2
    else sorted_values.getD (len / 2) 0

/-- `ConsensusData::calculate_standard_deviation` (population variance
with integer division, then the integer square root). -/
def calculate_standard_deviation (values : List Nat) (mean : Nat) : Nat :=
  if values.length ≤ 1 then 0
  else
    let variance :=
      (values.map (fun value =>
        let diff := if value > mean then value - mean else mean - value
        diff * diff)).sum / values.length
    integer_sqrt variance

/-- `ConsensusData::calculate_confidence_score`. -/
def calculate_confidence_score (values : List Nat) (std_dev : Nat) : Nat :=
  if values.isEmpty then 0
  else
    let mean := values.sum / values.length
    if mean = 0 then 0
    else
      let coefficient_of_variation := std_dev * 100 / mean
      if coefficient_of_variation > 100 then 0 else 100 - coefficient_of_variation

/-- `ConsensusData::from_oracle_values`. -/
def ConsensusData.from_oracle_values (values : List Nat) (timestamp : Int) : ConsensusData :=
  let aggregated_value := calculate_weighted_average values
  { aggregated_value := aggregated_value
    confidence_score :=
      calculate_confidence_score values (calculate_standard_deviation values aggregated_value)
    oracle_count := values.length
    consensus_timestamp := timestamp
    median_value := calculate_median values
    standard_deviation := calculate_standard_deviation values aggregated_value }

/-- `remove_outliers` from src/instructions/oracle.rs: drop values beyond
two standard deviations from the integer mean. -/
def remove_outliers (values : List Nat) : List Nat :=
  if values.length ≤ 2 then values
  else
    let mean := values.sum / values.length
    let variance :=
      (values.map (fun x =>
        let diff := if x > mean then x - mean else mean - x
        diff * diff)).sum / values.length
    let std_dev := integer_sqrt variance
    let threshold := std_dev * 2
    let lower_bound := if mean > threshold then mean - threshold else 0
    let upper_bound := mean + threshold
    values.filter (fun value => decide (lower_bound ≤ value) && decide (value ≤ upper_bound))

/-- `get_consensus_data` from src/instructions/oracle.rs: select active
oracles holding a reading, drop readings older than ten minutes, remove
outliers, and require the minimum threshold at every stage. -/
def get_consensus_data (min_consensus_threshold : Nat) (oracles : List Oracle)
    (now : Int) : Except InsuranceError ConsensusData :=
  let active_oracles := oracles.filter (fun o => o.is_active && o.latest_data.isSome)
  if active_oracles.length < min_consensus_threshold then .error .InsufficientOracles
  else
    let valid_values := active_oracles.filterMap (fun o =>
      match o.latest_data with
      | some data => if now - data.timestamp ≤ 600 then some data.value else none
      | none => none)
    if valid_values.length < min_consensus_threshold then .error .InsufficientOracles
    else
      let filtered_values := remove_outliers valid_values
      if filtered_values.length < min_consensus_threshold then .error .InsufficientOracles
      else .ok (ConsensusData.from_oracle_values filtered_values now)

/-- Payout lifecycle states, src/state/payout.rs `PayoutStatus`. -/
inductive PayoutStatus where
  | Pending
  | PendingApproval
  | Ready
  | Executed
  | Rejected
  | Expired
  deriving DecidableEq

/-- Queued claim awaiting settlement, src/state/payout.rs `PendingPayout`. -/
structure PendingPayout where
  policy_id : String
  amount : Nat
  timestamp : Int
  priority : Nat
  status : PayoutStatus
  beneficiary : Nat
  trigger_oracle_data : List Nat
  severity_score : Nat
  approval_timestamp : Option Int
  approved_by : Option Nat
  expires_at : Int
  rejection_reason : Option String
  deriving DecidableEq

/-- `PendingPayout::is_expired`. -/
def PendingPayout.is_expired (p : PendingPayout) (current_timestamp : Int) : Bool :=
  decide (current_timestamp > p.expires_at)

/-- `PendingPayout::requires_approval`. -/
def PendingPayout.requires_approval (p : PendingPayout) : Bool :=
  decide (p.status = PayoutStatus.PendingApproval)

/-- `PendingPayout::is_ready_for_execution`. -/
def PendingPayout.is_ready_for_execution (p : PendingPayout) : Bool :=
  decide (p.status = PayoutStatus.Ready)

/-- Ordering used by `get_next_payout_batch`: `a` may precede `b` when the
sort comparator of the source (priority descending, then timestamp
ascending) does not order `a` strictly after `b`. -/
def payout_before (a b : PendingPayout) : Prop :=
  b.priority < a.priority ∨ (a.priority = b.priority ∧ a.timestamp ≤ b.timestamp)

instance : DecidableRel payout_before := fun a b => by
  unfold payout_before; infer_instance

instance : IsTotal PendingPayout payout_before :=
  ⟨by intro a b; unfold payout_before; omega⟩

instance : IsTrans PendingPayout payout_before :=
  ⟨by intro a b c; unfold payout_before; omega⟩

/-- `get_next_payout_batch` from src/instructions/payout.rs: keep entries
that are Ready and unexpired, sort by priority descending with timestamp
ascending as tie-break, return the first `batch_size`.  The source uses
the standard stable sort with that comparator; modeled with the stable
insertionSort over `payout_before`, which yields the same list. -/
def get_next_payout_batch (pending_payouts : List PendingPayout) (batch_size : Nat)
    (current_timestamp : Int) : List PendingPayout :=
  let ready_payouts := pending_payouts.filter (fun p =>
    p.is_ready_for_execution && !(p.is_expired current_timestamp))
  (ready_payouts.insertionSort payout_before).take batch_size

/-- `approve_payout` from src/instructions/payout.rs, including the
`status == PendingApproval` account constraint: reject expired entries,
then mark the entry Ready and record approver and time. -/
def approve_payout (p : PendingPayout) (admin : Nat) (now : Int) :
    Except InsuranceError PendingPayout :=
  if p.status = PayoutStatus.PendingApproval then
    if p.is_expired now then .error .ClaimPeriodExpired
    else .ok { p with status := PayoutStatus.Ready,
                      approval_timestamp := some now,
                      approved_by := some admin }
  else .error .PayoutConditionsNotMet

/-- `execute_payout` gating from src/instructions/payout.rs, including the
`status == Ready` and beneficiary account constraints: reject expired
entries and insufficient treasury balance.  The fund movement itself is
external value transfer. -/
def execute_payout (p : PendingPayout) (beneficiary : Nat) (treasury_balance : Nat)
    (now : Int) : Except InsuranceError Unit :=
  if p.status = PayoutStatus.Ready then
    if p.beneficiary = beneficiary then
      if p.is_expired now then .error .ClaimPeriodExpired
      else if treasury_balance < p.amount then .error .InsufficientTreasury
      else .ok ()
    else .error .Unauthorized
  else .error .PayoutConditionsNotMet

/-- Inputs of the payout formula, src/state/payout.rs
`PayoutCalculationData`. -/
structure PayoutCalculationData where
  coverage_amount : Nat
  deductible : Nat
  severity_percentage : Nat
  max_payout : Nat
  insurance_type : String

/-- `PayoutCalculationData::calculate_payout`: apply the severity
percentage to the coverage, subtract the deductible (zero when the scaled
amount is at or below it), cap by the maximum payout. -/
def PayoutCalculationData.calculate_payout (d : PayoutCalculationData) : Nat :=
  let payout := d.coverage_amount * d.severity_percentage / 100
  if payout > d.deductible then
    let payout2 := payout - d.deductible
    if payout2 > d.max_payout then d.max_payout else payout2
  else 0

/-- Token books of the treasury, src/state/treasury.rs `TokenType`. -/
inductive TokenType where
  | USDC
  | SOL
  deriving DecidableEq

/-- Withdrawal reasons, src/state/treasury.rs `WithdrawalReason`. -/
inductive WithdrawalReason where
  | AdminWithdrawal
  | PolicyPayout
  | PremiumRefund
  | EmergencyWithdrawal
  deriving DecidableEq

/-- Treasury account state, src/state/treasury.rs `Treasury` (token
account pubkeys and the bump seed omitted). -/
structure Treasury where
  authority : Nat
  total_usdc_balance : Nat
  total_sol_balance : Nat
  total_premiums_collected_usdc : Nat
  total_premiums_collected_sol : Nat
  total_payouts_disbursed_usdc : Nat
  total_payouts_disbursed_sol : Nat
  current_reserve_ratio_bps : Nat
  minimum_reserve_ratio_bps : Nat
  total_coverage_exposure : Nat
  deposit_count : Nat
  withdrawal_count : Nat
  last_update_timestamp : Int
  deriving DecidableEq

/-- `Treasury::calculate_reserve_ratio`: basis points of balance over
exposure.  The source computes the u64 quotient and then narrows it with
`ratio as u16` before `min(_, 10000)`; the cast is modeled by `% 65536`. -/
def Treasury.calculate_reserve_ratio_bps (t : Treasury) : Nat :=
  if t.total_coverage_exposure = 0 then 10000
  else
    let total_balance := t.total_usdc_balance + t.total_sol_balance
    if total_balance = 0 then 0
    else min (total_balance * 10000 / t.total_coverage_exposure % 65536) 10000

/-- `Treasury::available_liquidity`: balance in excess of the reserve
required for the current exposure at the minimum reserve requirement. -/
def Treasury.available_liquidity (t : Treasury) : Nat :=
  let total_balance := t.total_usdc_balance + t.total_sol_balance
  let required_reserves := t.total_coverage_exposure * t.minimum_reserve_ratio_bps / 10000
  if total_balance > required_reserves then total_balance - required_reserves else 0

/-- Balance of the chosen asset book, mirroring the per-token `match` of
`withdraw_funds`. -/
def Treasury.asset_balance (t : Treasury) (token_type : TokenType) : Nat :=
  match token_type with
  | .USDC => t.total_usdc_balance
  | .SOL => t.total_sol_balance

/-- State update applied by a successful `withdraw_funds`: subtract from
the chosen book, count the withdrawal, refresh ratio and timestamp. -/
def withdraw_apply (t : Treasury) (amount : Nat) (token_type : TokenType)
    (now : Int) : Treasury :=
  let t1 := match token_type with
    | .USDC => { t with total_usdc_balance := t.total_usdc_balance - amount }
    | .SOL => { t with total_sol_balance := t.total_sol_balance - amount }
  let t2 := { t1 with withdrawal_count := t1.withdrawal_count + 1 }
  { t2 with current_reserve_ratio_bps := t2.calculate_reserve_ratio_bps,
            last_update_timestamp := now }

/-- `withdraw_funds` from src/instructions/treasury.rs: positive amount,
per-asset balance check, and (only for admin withdrawals) the
available-liquidity check. -/
def withdraw_funds (t : Treasury) (amount : Nat) (token_type : TokenType)
    (reason : WithdrawalReason) (now : Int) : Except InsuranceError Treasury :=
  if amount = 0 then .error .InvalidInput
  else if t.asset_balance token_type < amount then .error .InsufficientTreasury
  else if reason = WithdrawalReason.AdminWithdrawal ∧ t.available_liquidity < amount then
    .error .ReserveRatioViolation
  else .ok (withdraw_apply t amount token_type now)

/-- Score bounds tracked by the oracle registry: reputation and accuracy
stay within [0, 100] (the lower bound is inherent to Nat). -/
def scores_within_bounds (o : Oracle) : Prop :=
  o.reputation_score ≤ 100 ∧ o.health_metrics.accuracy_score ≤ 100

/-- Oracle holding a previous reading of value 100, used for the swing
rejection scenarios. -/
def c1_oracle_swing : Oracle :=
  { register_oracle_state "c1a" 1 "feed" with latest_data := some ⟨100, 0, 1, [1], 0⟩ }

/-- Oracle holding a previous reading of value 1, used for the u8
truncation scenario. -/
def c1_oracle_wrap : Oracle :=
  { register_oracle_state "c1b" 1 "feed" with latest_data := some ⟨1, 0, 1, [1], 0⟩ }

/-- Active oracle with a fresh stored reading of the given value, used for
the consensus scenario. -/
def c3_oracle (v : Nat) (nonce : Nat) : Oracle :=
  { register_oracle_state "c3" 1 "feed" with latest_data := some ⟨v, 0, 1, [1], nonce⟩ }

/-- The five readings of the consensus scenario. -/
def c3_oracles : List Oracle :=
  [c3_oracle 100 0, c3_oracle 102 1, c3_oracle 98 2, c3_oracle 1000 3, c3_oracle 101 4]

/-- Ready, unexpired queue entry A with priority 90 and timestamp 100. -/
def c7_a : PendingPayout := ⟨"A", 10, 100, 90, .Ready, 7, [], 50, none, none, 1000000, none⟩

/-- Ready, unexpired queue entry B with priority 90 and timestamp 50. -/
def c7_b : PendingPayout := ⟨"B", 10, 50, 90, .Ready, 7, [], 50, none, none, 1000000, none⟩

/-- Ready, unexpired queue entry C with priority 95 and timestamp 200. -/
def c7_c : PendingPayout := ⟨"C", 10, 200, 95, .Ready, 7, [], 50, none, none, 1000000, none⟩

/-- Ready queue entry created at time 0 with the 24-hour expiry stamp. -/
def c8_payout : PendingPayout := ⟨"P", 10, 0, 90, .Ready, 7, [], 50, none, none, 86400, none⟩

/-- Treasury with balance 800 (all USDC), exposure 1000, minimum reserve
2000 bps. -/
def c2_treasury : Treasury := ⟨1, 800, 0, 0, 0, 0, 0, 8000, 2000, 1000, 0, 0, 0⟩

/-- Treasury with balance 800 (all USDC), exposure 1000, minimum reserve
2000 bps, for the reserve-ratio example. -/
def c6_treasury : Treasury := ⟨1, 800, 0, 0, 0, 0, 0, 8000, 2000, 1000, 0, 0, 0⟩

/-- Treasury whose balance is 7 times its exposure, exercising the u16
narrowing cast in the reserve-ratio computation. -/
def c6_big_treasury : Treasury := ⟨1, 700, 0, 0, 0, 0, 0, 10000, 2000, 100, 0, 0, 0⟩

/-- Health metrics with four recorded failed validations. -/
def c5_metrics : OracleHealthMetrics := ⟨0, 100, 0, 4, false⟩

/-- Oracle whose circuit breaker is active after five failed validations. -/
def c5_oracle : Oracle :=
  { register_oracle_state "c5" 1 "feed" with health_metrics := ⟨0, 75, 0, 5, true⟩ }

/-- Fresh oracle used to instantiate the score-bounds invariant. -/
def c9_oracle : Oracle := register_oracle_state "c9" 1 "feed"

/-- Auxiliary: `update_oracle_health` keeps reputation and accuracy within
[0, 100] for both the success and the failure path. -/
theorem update_oracle_health_preserves_bounds (o : Oracle) (s : Bool) (now : Int)
    (h : scores_within_bounds o) : scores_within_bounds (update_oracle_health o s now) := by
  obtain ⟨h1, h2⟩ := h
  unfold scores_within_bounds update_oracle_health
    OracleHealthMetrics.record_successful_update OracleHealthMetrics.record_failed_validation
  cases s <;> simp <;> split_ifs <;> simp_all <;> omega

/-- C1 counterexample.  The claim states that a swing above 50 percent is
rejected and that the rejection increments failed_validations by 1 and
degrades reputation by 3 and accuracy by 5.  On the code: a 100 percent
swing (100 to 200) is indeed rejected, but the error propagates before
any health update, so failed_validations stays 0 and both scores stay
100; and a 300 percent swing (1 to 4) is accepted outright, because the
u8 narrowing cast wraps the computed percentage 300 to 44, under the cap
of 50. -/
theorem c1_swing_health_counterexample :
    update_oracle_data c1_oracle_swing ⟨200, 0, 1, [1], 1⟩ 0
      = ⟨.error .InvalidOracleData, c1_oracle_swing⟩
  ∧ (update_oracle_data c1_oracle_swing ⟨200, 0, 1, [1], 1⟩ 0).oracle.health_metrics.failed_validations = 0
  ∧ (update_oracle_data c1_oracle_swing ⟨200, 0, 1, [1], 1⟩ 0).oracle.reputation_score = 100
  ∧ (update_oracle_data c1_oracle_swing ⟨200, 0, 1, [1], 1⟩ 0).oracle.health_metrics.accuracy_score = 100
  ∧ (4 - 1) * 100 / 1 > 50
  ∧ (update_oracle_data c1_oracle_wrap ⟨4, 0, 1, [1], 1⟩ 0).res = .ok () := by
  decide

/-- C1 (amended): for every active oracle with a stored previous reading
and inactive circuit breaker, a new reading whose computed change
min((|new - old| * 100 / old) mod 256, 100) (100 when old = 0) exceeds 50
is rejected with InvalidOracleData, and on that rejection the oracle
account — failed_validations, reputation_score and accuracy_score
included — is left completely unchanged. -/
theorem c1_swing_rejection_amended (oracle : Oracle) (data : OracleData) (now : Int)
    (last : OracleData)
    (hact : oracle.is_active = true)
    (hcb : oracle.health_metrics.circuit_breaker_active = false)
    (hlast : oracle.latest_data = some last)
    (hpct : 50 < calculate_percentage_change last.value data.value) :
    update_oracle_data oracle data now = ⟨.error .InvalidOracleData, oracle⟩ := by
  have hn : ¬ (calculate_percentage_change last.value data.value ≤ 50) := by omega
  simp [update_oracle_data, validate_data_reasonableness, hact, hcb, hlast, hn]

/-- C1 witness: the amended rejection theorem at the concrete 100-to-200
swing. -/
theorem c1_swing_rejection_amended_witness :
    update_oracle_data c1_oracle_swing ⟨200, 0, 1, [1], 1⟩ 0
      = ⟨.error .InvalidOracleData, c1_oracle_swing⟩ :=
  c1_swing_rejection_amended c1_oracle_swing ⟨200, 0, 1, [1], 1⟩ 0 ⟨100, 0, 1, [1], 0⟩
    (by decide) (by decide) rfl (by decide)

/-- C2: a treasury withdrawal fails with InsufficientTreasury when the
chosen asset book is below the amount; an admin withdrawal additionally
fails with ReserveRatioViolation unless the amount is within the
available liquidity; a claim-payout withdrawal of a positive amount is
subject only to the balance check; available liquidity is the balance in
excess of the required reserve; and on the 800/1000/2000bps treasury an
admin withdrawal of 300 succeeds while one of 700 fails. -/
theorem c2_withdraw_spec (t : Treasury) (amount : Nat) (token_type : TokenType)
    (reason : WithdrawalReason) (now : Int) :
    (t.asset_balance token_type < amount →
      withdraw_funds t amount token_type reason now = .error .InsufficientTreasury)
  ∧ (reason = WithdrawalReason.AdminWithdrawal → amount ≤ t.asset_balance token_type →
      t.available_liquidity < amount →
      withdraw_funds t amount token_type reason now = .error .ReserveRatioViolation)
  ∧ (reason = WithdrawalReason.PolicyPayout → 0 < amount →
      ((withdraw_funds t amount token_type reason now).isOk = true
        ↔ amount ≤ t.asset_balance token_type))
  ∧ t.available_liquidity
      = (t.total_usdc_balance + t.total_sol_balance)
        - t.total_coverage_exposure * t.minimum_reserve_ratio_bps / 10000
  ∧ (withdraw_funds c2_treasury 300 .USDC .AdminWithdrawal 0).isOk = true
  ∧ withdraw_funds c2_treasury 700 .USDC .AdminWithdrawal 0 = .error .ReserveRatioViolation := by
  refine ⟨?_, ?_, ?_, ?_, by decide, by decide⟩
  · intro hlt
    unfold withdraw_funds
    have h0 : ¬ (amount = 0) := by omega
    simp [h0, hlt]
  · intro hr hge hliq
    subst hr
    unfold withdraw_funds
    have h0 : ¬ (amount = 0) := by omega
    simp [h0, Nat.not_lt.mpr hge, hliq]
  · intro hr h0
    subst hr
    unfold withdraw_funds
    by_cases hb : t.asset_balance token_type < amount <;>
      simp [hb, Nat.pos_iff_ne_zero.mp h0, Except.isOk, Except.toBool] <;> omega
  · simp only [Treasury.available_liquidity]
    split_ifs <;> omega

/-- C2 witness: the admin-withdrawal failure branch and the claim-payout
balance-only branch at the concrete 800/1000/2000bps treasury. -/
theorem c2_withdraw_spec_witness :
    withdraw_funds c2_treasury 700 .USDC .AdminWithdrawal 0 = .error .ReserveRatioViolation
  ∧ ((withdraw_funds c2_treasury 300 .USDC .PolicyPayout 0).isOk = true
      ↔ 300 ≤ c2_treasury.asset_balance .USDC) :=
  ⟨(c2_withdraw_spec c2_treasury 700 .USDC .AdminWithdrawal 0).2.1 rfl (by decide) (by decide),
   (c2_withdraw_spec c2_treasury 300 .USDC .PolicyPayout 0).2.2.1 rfl (by decide)⟩

/-- C3: consensus over the five fresh readings [100, 102, 98, 1000, 101]
with threshold 3 removes 1000 by the two-sigma filter and returns the
integer mean 100 of the remaining four (with median 100, standard
deviation 1, confidence 99, count 4); the same input with threshold 5
fails with InsufficientOracles because only 4 readings survive. -/
theorem c3_consensus_example :
    get_consensus_data 3 c3_oracles 0 = .ok ⟨100, 99, 4, 0, 100, 1⟩
  ∧ remove_outliers [100, 102, 98, 1000, 101] = [100, 102, 98, 101]
  ∧ 1000 ∉ remove_outliers [100, 102, 98, 1000, 101]
  ∧ (100 + 102 + 98 + 101) / 4 = 100
  ∧ get_consensus_data 5 c3_oracles 0 = .error .InsufficientOracles := by
  decide

/-- C4: the computed payout equals (with p = coverage * severity / 100)
zero when p is at or below the deductible and min(p - deductible,
max_payout) otherwise; for severity within [0, 100] it never exceeds
max_payout nor coverage minus deductible; and the two concrete examples
evaluate to 400 and 0. -/
theorem c4_payout_formula (coverage deductible severity max_payout : Nat)
    (ty : String) (hsev : severity ≤ 100) :
    (PayoutCalculationData.mk coverage deductible severity max_payout ty).calculate_payout
        = (if coverage * severity / 100 ≤ deductible then 0
           else min (coverage * severity / 100 - deductible) max_payout)
  ∧ (PayoutCalculationData.mk coverage deductible severity max_payout ty).calculate_payout
      ≤ max_payout
  ∧ (PayoutCalculationData.mk coverage deductible severity max_payout ty).calculate_payout
      ≤ coverage - deductible
  ∧ (PayoutCalculationData.mk 1000 100 50 600 "Weather").calculate_payout = 400
  ∧ (PayoutCalculationData.mk 1000 600 50 600 "Weather").calculate_payout = 0 := by
  have h1 : coverage * severity ≤ coverage * 100 := Nat.mul_le_mul_left _ hsev
  refine ⟨?_, ?_, ?_, by decide, by decide⟩ <;>
    · simp only [PayoutCalculationData.calculate_payout]
      split_ifs <;> omega

/-- C4 witness: the payout formula at coverage 1000, deductible 100,
severity 50, max payout 600. -/
theorem c4_payout_formula_witness :
    (PayoutCalculationData.mk 1000 100 50 600 "Weather").calculate_payout
      = (if 1000 * 50 / 100 ≤ 100 then 0 else min (1000 * 50 / 100 - 100) 600) :=
  (c4_payout_formula 1000 100 50 600 "Weather" (by decide)).1

/-- C5: recording a failed validation increments failed_validations by
exactly 1 and trips the circuit breaker once the count reaches 5; while
the breaker is active every reading submission fails and leaves the
oracle — breaker included — unchanged; and the explicit breaker reset
clears the breaker and the failure counter. -/
theorem c5_circuit_breaker_lifecycle :
    (∀ (m : OracleHealthMetrics) (now : Int),
        (m.record_failed_validation now).failed_validations = m.failed_validations + 1
      ∧ (5 ≤ m.failed_validations + 1 →
          (m.record_failed_validation now).circuit_breaker_active = true))
  ∧ (∀ (oracle : Oracle) (data : OracleData) (now : Int),
        oracle.health_metrics.circuit_breaker_active = true →
        (update_oracle_data oracle data now).res.isOk = false
      ∧ (update_oracle_data oracle data now).oracle = oracle)
  ∧ (∀ oracle : Oracle,
        (reset_oracle_circuit_breaker oracle).health_metrics.circuit_breaker_active = false
      ∧ (reset_oracle_circuit_breaker oracle).health_metrics.failed_validations = 0) := by
  refine ⟨?_, ?_, fun o => ⟨rfl, rfl⟩⟩
  · intro m now
    simp only [OracleHealthMetrics.record_failed_validation]
    split_ifs <;> simp_all
  · intro o d now hcb
    cases hact : o.is_active <;>
      simp [update_oracle_data, validate_data_reasonableness, hact, hcb,
        Except.isOk, Except.toBool]

/-- C5 witness: the fifth recorded failure trips the breaker, a
submission against a tripped oracle fails, and the reset clears it. -/
theorem c5_circuit_breaker_lifecycle_witness :
    (c5_metrics.record_failed_validation 0).circuit_breaker_active = true
  ∧ (update_oracle_data c5_oracle ⟨1, 0, 1, [1], 1⟩ 0).res.isOk = false
  ∧ (reset_oracle_circuit_breaker c5_oracle).health_metrics.circuit_breaker_active = false :=
  ⟨(c5_circuit_breaker_lifecycle.1 c5_metrics 0).2 (by decide),
   (c5_circuit_breaker_lifecycle.2.1 c5_oracle ⟨1, 0, 1, [1], 1⟩ 0 (by decide)).1,
   (c5_circuit_breaker_lifecycle.2.2 c5_oracle).1⟩

/-- C6 counterexample.  The claim states the reserve ratio equals
min(10000, balance * 10000 / exposure).  With balance 700 and exposure
100 the quotient is 70000, which the u16 narrowing cast wraps to 4464
before the clamp, so the code returns 4464 instead of the claimed
10000. -/
theorem c6_reserve_cast_counterexample :
    c6_big_treasury.calculate_reserve_ratio_bps = 4464
  ∧ min 10000 ((c6_big_treasury.total_usdc_balance + c6_big_treasury.total_sol_balance) * 10000
        / c6_big_treasury.total_coverage_exposure) = 10000
  ∧ (4464 : Nat) ≠ 10000 := by
  decide

/-- C6 (amended): the reserve ratio equals 10000 when exposure is 0, and
equals min(10000, balance * 10000 / exposure) whenever that quotient is
below 65536 (the u16 narrowing cast wraps larger quotients modulo 65536
before the clamp); in particular balance 800 over exposure 1000 gives
8000 basis points. -/
theorem c6_reserve_formula_amended (t : Treasury) :
    (t.total_coverage_exposure = 0 → t.calculate_reserve_ratio_bps = 10000)
  ∧ (t.total_coverage_exposure ≠ 0 →
      (t.total_usdc_balance + t.total_sol_balance) * 10000 / t.total_coverage_exposure < 65536 →
      t.calculate_reserve_ratio_bps
        = min 10000 ((t.total_usdc_balance + t.total_sol_balance) * 10000
            / t.total_coverage_exposure))
  ∧ c6_treasury.calculate_reserve_ratio_bps = 8000 := by
  refine ⟨?_, ?_, by decide⟩
  · intro h
    simp [Treasury.calculate_reserve_ratio_bps, h]
  · intro h hlt
    unfold Treasury.calculate_reserve_ratio_bps
    dsimp only
    rw [if_neg h]
    by_cases hb : t.total_usdc_balance + t.total_sol_balance = 0
    · rw [if_pos hb, hb]
      simp
    · rw [if_neg hb, Nat.mod_eq_of_lt hlt, Nat.min_comm]

/-- C6 witness: the amended formula at the 800/1000 treasury. -/
theorem c6_reserve_formula_amended_witness :
    c6_treasury.calculate_reserve_ratio_bps
      = min 10000 ((c6_treasury.total_usdc_balance + c6_treasury.total_sol_balance) * 10000
          / c6_treasury.total_coverage_exposure) :=
  (c6_reserve_formula_amended c6_treasury).2.1 (by decide) (by decide)

/-- C7: every entry of a retrieved batch is Ready and unexpired, the
batch is sorted by priority descending with creation timestamp ascending
as tie-break, and the entries A(90, 100), B(90, 50), C(95, 200) come back
in the order [C, B, A]. -/
theorem c7_batch_order_spec (payouts : List PendingPayout) (batch_size : Nat) (now : Int) :
    (∀ p ∈ get_next_payout_batch payouts batch_size now,
        p.status = PayoutStatus.Ready ∧ p.is_expired now = false)
  ∧ List.Pairwise payout_before (get_next_payout_batch payouts batch_size now)
  ∧ get_next_payout_batch [c7_a, c7_b, c7_c] 10 0 = [c7_c, c7_b, c7_a] := by
  refine ⟨?_, ?_, by decide⟩
  · intro p hp
    unfold get_next_payout_batch at hp
    have h1 := (List.take_sublist _ _).subset hp
    have h2 := (List.mem_insertionSort payout_before).mp h1
    have h3 := (List.mem_filter.mp h2).2
    rw [Bool.and_eq_true] at h3
    refine ⟨of_decide_eq_true h3.1, ?_⟩
    have h4 := h3.2
    rwa [Bool.not_eq_true'] at h4
  · unfold get_next_payout_batch
    exact List.Pairwise.sublist (List.take_sublist _ _)
      (List.sorted_insertionSort payout_before _)

/-- C7 witness: the membership part of the batch theorem at the highest
priority entry of the concrete scenario. -/
theorem c7_batch_order_spec_witness :
    c7_c.status = PayoutStatus.Ready ∧ c7_c.is_expired 0 = false :=
  (c7_batch_order_spec [c7_a, c7_b, c7_c] 10 0).1 c7_c (by decide)

/-- C8 counterexample.  The claim states an expired entry "reports status
Expired" at the next inspection.  On the code no operation ever writes
PayoutStatus.Expired: a Ready entry created at time 0 and inspected at
time 86401 is excluded from the batch and counts as expired through the
is_expired predicate, yet its stored status remains Ready. -/
theorem c8_expired_status_counterexample :
    c8_payout.is_expired 86401 = true
  ∧ get_next_payout_batch [c8_payout] 10 86401 = []
  ∧ c8_payout.status = PayoutStatus.Ready
  ∧ PayoutStatus.Ready ≠ PayoutStatus.Expired := by
  decide

/-- C8 (amended): once the current time exceeds creation time plus 24
hours (the stored expiry stamp), the entry counts as expired at the next
inspection: is_expired reports true, the entry is excluded from every
ready-batch, and approval and execution of it fail; its stored status
field, however, is never rewritten to Expired. -/
theorem c8_expiry_lazy_amended (p : PendingPayout) (payouts : List PendingPayout)
    (batch_size : Nat) (now : Int) (admin beneficiary treasury_balance : Nat)
    (hexp : p.expires_at = p.timestamp + 86400)
    (hnow : p.timestamp + 86400 < now) :
    p.is_expired now = true
  ∧ p ∉ get_next_payout_batch payouts batch_size now
  ∧ (approve_payout p admin now).isOk = false
  ∧ (execute_payout p beneficiary treasury_balance now).isOk = false := by
  have hx : p.is_expired now = true := decide_eq_true (by omega)
  refine ⟨hx, ?_, ?_, ?_⟩
  · intro hp
    unfold get_next_payout_batch at hp
    have h1 := (List.take_sublist _ _).subset hp
    have h2 := (List.mem_insertionSort payout_before).mp h1
    have h3 := (List.mem_filter.mp h2).2
    rw [Bool.and_eq_true, Bool.not_eq_true'] at h3
    exact Bool.false_ne_true (h3.2 ▸ hx)
  · unfold approve_payout
    by_cases h1 : p.status = PayoutStatus.PendingApproval <;>
      simp [h1, hx, Except.isOk, Except.toBool]
  · unfold execute_payout
    by_cases h1 : p.status = PayoutStatus.Ready
    · by_cases h2 : p.beneficiary = beneficiary <;>
        simp [h1, h2, hx, Except.isOk, Except.toBool]
    · simp [h1, Except.isOk, Except.toBool]

/-- C8 witness: the amended expiry theorem at the concrete Ready entry
created at time 0 and inspected at time 86401. -/
theorem c8_expiry_lazy_amended_witness :
    c8_payout.is_expired 86401 = true
  ∧ c8_payout ∉ get_next_payout_batch [c8_payout] 10 86401
  ∧ (approve_payout c8_payout 1 86401).isOk = false
  ∧ (execute_payout c8_payout 7 1000 86401).isOk = false :=
  c8_expiry_lazy_amended c8_payout [c8_payout] 10 86401 1 7 1000 (by decide) (by decide)

/-- C9: starting from registration (reputation 100, accuracy 100), every
modeled oracle operation — reading submission with any outcome, direct
health update, daily reset, emergency override, breaker reset — keeps
reputation_score and accuracy_score within [0, 100]. -/
theorem c9_scores_invariant :
    (∀ (oracle_id : String) (authority : Nat) (data_feed_address : String),
        scores_within_bounds (register_oracle_state oracle_id authority data_feed_address))
  ∧ (∀ (o : Oracle) (d : OracleData) (now : Int),
        scores_within_bounds o → scores_within_bounds (update_oracle_data o d now).oracle)
  ∧ (∀ (o : Oracle) (s : Bool) (now : Int),
        scores_within_bounds o → scores_within_bounds (update_oracle_health o s now))
  ∧ (∀ (o : Oracle) (now : Int),
        scores_within_bounds o →
        scores_within_bounds { o with health_metrics := o.health_metrics.reset_daily_metrics now })
  ∧ (∀ (o : Oracle) (d : OracleData) (now : Int),
        scores_within_bounds o → scores_within_bounds (emergency_oracle_override o d now))
  ∧ (∀ o : Oracle, scores_within_bounds o → scores_within_bounds (reset_oracle_circuit_breaker o)) := by
  refine ⟨fun _ _ _ => ⟨Nat.le.refl, Nat.le.refl⟩, ?_,
    update_oracle_health_preserves_bounds, ?_, fun o d now h => h, fun o h => h⟩
  · intro o d now h
    unfold update_oracle_data apply_successful_update
    repeat' split
    all_goals first
      | exact h
      | exact update_oracle_health_preserves_bounds _ _ _ h
  · intro o now h
    obtain ⟨h1, h2⟩ := h
    refine ⟨h1, ?_⟩
    show (o.health_metrics.reset_daily_metrics now).accuracy_score ≤ 100
    unfold OracleHealthMetrics.reset_daily_metrics
    dsimp only
    split <;> simp_all

/-- C9 witness: the invariant preserved across a successful submission on
a freshly registered oracle. -/
theorem c9_scores_invariant_witness :
    scores_within_bounds (update_oracle_data c9_oracle ⟨1, 0, 1, [1], 1⟩ 0).oracle :=
  c9_scores_invariant.2.1 c9_oracle ⟨1, 0, 1, [1], 1⟩ 0 ⟨by decide, by decide⟩

/-- C10: the admin emergency override stores the corrected reading and
the new update timestamp and clears the circuit breaker and the failure
counter, while leaving reputation_score, accuracy_score, updates_24h,
update_count and is_active unchanged. -/
theorem c10_emergency_override_frame (oracle : Oracle) (corrected_data : OracleData)
    (now : Int) :
    (emergency_oracle_override oracle corrected_data now).latest_data = some corrected_data
  ∧ (emergency_oracle_override oracle corrected_data now).last_update_timestamp = now
  ∧ (emergency_oracle_override oracle corrected_data now).health_metrics.circuit_breaker_active = false
  ∧ (emergency_oracle_override oracle corrected_data now).health_metrics.failed_validations = 0
  ∧ (emergency_oracle_override oracle corrected_data now).reputation_score = oracle.reputation_score
  ∧ (emergency_oracle_override oracle corrected_data now).health_metrics.accuracy_score
      = oracle.health_metrics.accuracy_score
  ∧ (emergency_oracle_override oracle corrected_data now).health_metrics.updates_24h
      = oracle.health_metrics.updates_24h
  ∧ (emergency_oracle_override oracle corrected_data now).update_count = oracle.update_count
  ∧ (emergency_oracle_override oracle corrected_data now).is_active = oracle.is_active :=
  ⟨rfl, rfl, rfl, rfl, rfl, rfl, rfl, rfl, rfl⟩
